import Mathlib

/-!
Shallow embedding of the Modbus register decoder and polling client in
`SolarTracer.py` (class `SolarTracer`), together with theorems checking the
specification's claims about it.

Modelling conventions:
- Raw 16-bit register words are natural numbers; Python's float arithmetic on
  the (exactly representable) integer register values and small divisors is
  modelled by exact rational arithmetic over `ℚ`.
- Python dictionaries returned by the snapshot readers are association lists
  `List (String × ℚ)`; the Python value `None` (returned on a failed block
  read) is `Option.none`.
- The serial transport is modelled by passing the outcome of the underlying
  Modbus transaction as an explicit argument: a successful block read is
  `some regs`, a transport failure (`IOError`, caught by the reader) is `none`.
- Python's `int()` truncation toward zero on a rational value is `pyTrunc`.
-/

namespace SolarTracer

/-- `combine32BitValue(low_reg, high_reg)` from `SolarTracer.py`:
`(high_reg * 65536 + low_reg) / 100.0`. -/
def combine32BitValue (low_reg high_reg : ℕ) : ℚ :=
  ((high_reg : ℚ) * 65536 + (low_reg : ℚ)) / 100

/-- Result of `decodeBatteryStatus` (`SolarTracer.py`, register 0x3200):
a Python dict with two table-indexed string fields and two boolean flags. -/
structure BatteryStatus where
  voltage_status : String
  temperature_status : String
  internal_resistance_abnormal : Bool
  wrong_voltage_identification : Bool
deriving Repr, DecidableEq

/-- `decodeBatteryStatus(status_value)` from `SolarTracer.py`. The Python code
indexes `status_value & 0x0F` into a 5-element list; for indices 5–15 this
raises `IndexError` (the function has no guard), modelled here as `none`. The
temperature index is reduced `% 3` before lookup, so that lookup never fails. -/
def decodeBatteryStatus (status_value : ℕ) : Option BatteryStatus :=
  match ["Normal", "Overvolt", "Under Volt", "Low Volt Disconnect", "Fault"].get?
      (status_value &&& 0x0F) with
  | none => none
  | some vs =>
      some
        { voltage_status := vs
          temperature_status :=
            ["Normal", "Over Temp", "Low Temp"].getD
              (((status_value >>> 4) &&& 0x0F) % 3) ""
          internal_resistance_abnormal := status_value &&& 0x0100 != 0
          wrong_voltage_identification := status_value &&& 0x8000 != 0 }

/-- Result of `decodeChargingStatus` (`SolarTracer.py`, register 0x3201),
fields in the order the Python dict builds them. -/
structure ChargingStatus where
  input_voltage_status : String
  charging_mosfet_short : Bool
  charging_anti_reverse_short : Bool
  anti_reverse_short : Bool
  input_over_current : Bool
  load_over_current : Bool
  load_short : Bool
  load_mosfet_short : Bool
  pv_input_short : Bool
  charging_status : String
  fault : Bool
  running : Bool
deriving Repr, DecidableEq

/-- `decodeChargingStatus(status_value)` from `SolarTracer.py`. Both shifted
indices are masked with `& 0x03`, so the 4-element table lookups always
succeed; `getD` with default `""` is never needed but mirrors Python's list
indexing made total. -/
def decodeChargingStatus (status_value : ℕ) : ChargingStatus :=
  { input_voltage_status :=
      ["Normal", "No power", "Higher volt input", "Input volt error"].getD
        ((status_value >>> 14) &&& 0x03) ""
    charging_mosfet_short := status_value &&& 0x2000 != 0
    charging_anti_reverse_short := status_value &&& 0x1000 != 0
    anti_reverse_short := status_value &&& 0x0800 != 0
    input_over_current := status_value &&& 0x0400 != 0
    load_over_current := status_value &&& 0x0200 != 0
    load_short := status_value &&& 0x0100 != 0
    load_mosfet_short := status_value &&& 0x0080 != 0
    pv_input_short := status_value &&& 0x0010 != 0
    charging_status :=
      ["No charging", "Float", "Boost", "Equalization"].getD
        ((status_value >>> 2) &&& 0x03) ""
    fault := status_value &&& 0x0002 != 0
    running := status_value &&& 0x0001 != 0 }

/-- `readReg(register, decimals, function_code)` from `SolarTracer.py`. The
transport is modelled by `env : ℕ → Option ℕ`, mapping a register address to
the raw unsigned word a successful `read_register` transaction yields, or
`none` for an `IOError`. Per the minimalmodbus contract the library scales the
raw word by `10 ^ decimals`; on `IOError` the Python code returns `-1`. -/
def readReg (env : ℕ → Option ℕ) (register : ℕ) (decimals : ℕ) : ℚ :=
  match env register with
  | some raw => (raw : ℚ) / 10 ^ decimals
  | none => -1

/-- Field names of the dict built by `readRatedData` in `SolarTracer.py`. -/
def ratedKeys : List String :=
  ["pv_rated_voltage", "pv_rated_current", "pv_rated_power",
   "battery_rated_voltage"]

/-- `readRatedData()` from `SolarTracer.py`: one block read of 5 registers at
0x3000. `block = none` models a failed transaction (`IOError`, returning
`None`); on success the Python code indexes `regs[0]`–`regs[4]`, and an
out-of-range index would raise and be caught by the `except` clauses, also
returning `None` — hence the length guard. -/
def readRatedData (block : Option (List ℕ)) : Option (List (String × ℚ)) :=
  match block with
  | none => none
  | some regs =>
      if 5 ≤ regs.length then
        some
          [("pv_rated_voltage", (regs.getD 0 0 : ℚ) / 100),
           ("pv_rated_current", (regs.getD 1 0 : ℚ) / 100),
           ("pv_rated_power", combine32BitValue (regs.getD 2 0) (regs.getD 3 0)),
           ("battery_rated_voltage", (regs.getD 4 0 : ℚ) / 100)]
      else none

/-- Field names of the dict built by `readCurrent` in `SolarTracer.py`. -/
def currentKeys : List String :=
  ["PVvolt", "PVamps", "PVwatt", "BAvolt", "BAamps", "BAwatt",
   "DCvolt", "DCamps", "DCwatt", "BAtemp", "CTtemp",
   "power_components_temp", "BAperc"]

/-- `readCurrent()` from `SolarTracer.py`: one block read of 20 registers at
0x3100; indexes `regs[0]`–`regs[19]`, failure modelled as for
`readRatedData`. -/
def readCurrent (block : Option (List ℕ)) : Option (List (String × ℚ)) :=
  match block with
  | none => none
  | some regs =>
      if 20 ≤ regs.length then
        some
          [("PVvolt", (regs.getD 0 0 : ℚ) / 100),
           ("PVamps", (regs.getD 1 0 : ℚ) / 100),
           ("PVwatt", combine32BitValue (regs.getD 2 0) (regs.getD 3 0)),
           ("BAvolt", (regs.getD 4 0 : ℚ) / 100),
           ("BAamps", (regs.getD 5 0 : ℚ) / 100),
           ("BAwatt", combine32BitValue (regs.getD 6 0) (regs.getD 7 0)),
           ("DCvolt", (regs.getD 12 0 : ℚ) / 100),
           ("DCamps", (regs.getD 13 0 : ℚ) / 100),
           ("DCwatt", combine32BitValue (regs.getD 14 0) (regs.getD 15 0)),
           ("BAtemp", (regs.getD 16 0 : ℚ) / 100),
           ("CTtemp", (regs.getD 17 0 : ℚ) / 100),
           ("power_components_temp", (regs.getD 18 0 : ℚ) / 100),
           ("BAperc", (regs.getD 19 0 : ℚ) / 100)]
      else none

/-- Field names of the dict built by `readStats` in `SolarTracer.py`. -/
def statsKeys : List String :=
  ["max_pv_voltage_today", "min_pv_voltage_today",
   "max_battery_voltage_today", "min_battery_voltage_today",
   "consumed_energy_today", "consumed_energy_month", "consumed_energy_year",
   "total_consumed_energy", "generated_energy_today",
   "generated_energy_month", "generated_energy_year",
   "total_generated_energy"]

/-- `readStats()` from `SolarTracer.py`: one block read of 20 registers at
0x3300; indexes `regs[0]`–`regs[19]`, failure modelled as for
`readRatedData`. -/
def readStats (block : Option (List ℕ)) : Option (List (String × ℚ)) :=
  match block with
  | none => none
  | some regs =>
      if 20 ≤ regs.length then
        some
          [("max_pv_voltage_today", (regs.getD 0 0 : ℚ) / 100),
           ("min_pv_voltage_today", (regs.getD 1 0 : ℚ) / 100),
           ("max_battery_voltage_today", (regs.getD 2 0 : ℚ) / 100),
           ("min_battery_voltage_today", (regs.getD 3 0 : ℚ) / 100),
           ("consumed_energy_today", combine32BitValue (regs.getD 4 0) (regs.getD 5 0)),
           ("consumed_energy_month", combine32BitValue (regs.getD 6 0) (regs.getD 7 0)),
           ("consumed_energy_year", combine32BitValue (regs.getD 8 0) (regs.getD 9 0)),
           ("total_consumed_energy", combine32BitValue (regs.getD 10 0) (regs.getD 11 0)),
           ("generated_energy_today", combine32BitValue (regs.getD 12 0) (regs.getD 13 0)),
           ("generated_energy_month", combine32BitValue (regs.getD 14 0) (regs.getD 15 0)),
           ("generated_energy_year", combine32BitValue (regs.getD 16 0) (regs.getD 17 0)),
           ("total_generated_energy", combine32BitValue (regs.getD 18 0) (regs.getD 19 0))]
      else none

/-- `readAllSettings()` from `SolarTracer.py`: performs no transaction at all
and unconditionally returns the empty dict (after an INFO log). -/
def readAllSettings : Option (List (String × ℚ)) := some []

/-- `readSystemStatus()` from `SolarTracer.py`: performs no transaction at all
and unconditionally returns the empty dict (after an INFO log). -/
def readSystemStatus : Option (List (String × ℚ)) := some []

/-- `writeCoil(address, value)` from `SolarTracer.py`, with the transport
modelled by `env : ℕ → Bool` giving each coil write's success; the attempted
write `(address, value)` is appended to the trace `log`. Returns `True` on
success and `False` on `IOError`. -/
def writeCoil (env : ℕ → Bool) (log : List (ℕ × Bool)) (address : ℕ)
    (value : Bool) : Bool × List (ℕ × Bool) :=
  (env address, log ++ [(address, value)])

/-- `setLoadControl(manual_on, test_mode, force_on)` from `SolarTracer.py`:
`success = True`, then `success &= writeCoil(...)` for coils 0x0002, 0x0005,
0x0006 in turn; returns `success` together with the trace of attempted
writes. -/
def setLoadControl (env : ℕ → Bool) (manual_on test_mode force_on : Bool) :
    Bool × List (ℕ × Bool) :=
  let success := true
  let r1 := writeCoil env [] 0x0002 manual_on
  let success := success && r1.1
  let r2 := writeCoil env r1.2 0x0005 test_mode
  let success := success && r2.1
  let r3 := writeCoil env r2.2 0x0006 force_on
  let success := success && r3.1
  (success, r3.2)

/-- Python's `int()` applied to a rational value: truncation toward zero. -/
def pyTrunc (q : ℚ) : ℤ := q.num.tdiv q.den

/-- The `BATTERY_LEAD_ACID` preset from `SolarTracer.py`. -/
def BATTERY_LEAD_ACID : List ℤ :=
  [0, 300, 300, 1620, 1500, 1500, 1460, 1440, 1380, 1630, 1260, 1220, 1200,
   1110, 1060]

/-- `setBatterySettings(settings_list, battery_capacity, battery_voltage)`
from `SolarTracer.py`, modelled as the word sequence passed to
`write_registers(0x9000, new_settings)`: copy the list; if capacity ≠ 100 set
index 1 to the capacity; if voltage > 12, for each index from 3 on replace the
entry by `int(entry * (voltage / 12))` (the loop over `range(3, len)` is
rendered as `take 3 ++ map` over `drop 3`; the Python float product of a
register-sized integer and `voltage/12` is modelled exactly in `ℚ`). -/
def setBatterySettings (settings_list : List ℤ)
    (battery_capacity battery_voltage : ℤ) : List ℤ :=
  let new_settings :=
    if battery_capacity ≠ 100 then settings_list.set 1 battery_capacity
    else settings_list
  if 12 < battery_voltage then
    new_settings.take 3 ++
      (new_settings.drop 3).map
        (fun x => pyTrunc ((x : ℚ) * ((battery_voltage : ℚ) / 12)))
  else new_settings

/-- C1: `combine32BitValue(low, high)` equals `(high * 65536 + low) / 100`
with integer combination before a single division by 100; `combine32(0, 1) =
655.36`, `combine32(100, 0) = 1.0`; it is injective over pairs of 16-bit
words; and its result is never negative for unsigned inputs. -/
theorem combine32_claims :
    (∀ low high : ℕ,
      combine32BitValue low high = ((high * 65536 + low : ℕ) : ℚ) / 100) ∧
    combine32BitValue 0 1 = 655.36 ∧
    combine32BitValue 100 0 = 1 ∧
    (∀ l1 h1 l2 h2 : ℕ, l1 < 65536 → h1 < 65536 → l2 < 65536 → h2 < 65536 →
      combine32BitValue l1 h1 = combine32BitValue l2 h2 → l1 = l2 ∧ h1 = h2) ∧
    (∀ low high : ℕ, 0 ≤ combine32BitValue low high) := by
  refine ⟨?_, ?_, ?_, ?_, ?_⟩
  · intro low high
    unfold combine32BitValue
    push_cast
    ring
  · norm_num [combine32BitValue]
  · norm_num [combine32BitValue]
  · intro l1 h1 l2 h2 hl1 hh1 hl2 hh2 heq
    unfold combine32BitValue at heq
    have h100 : ((h1 : ℚ) * 65536 + l1) = ((h2 : ℚ) * 65536 + l2) := by
      field_simp at heq
      linarith
    have hnat : h1 * 65536 + l1 = h2 * 65536 + l2 := by exact_mod_cast h100
    omega
  · intro low high
    unfold combine32BitValue
    positivity

/-- Witness for C1: the injectivity clause applied at the concrete pair
(0, 1) = (0, 1), with the 16-bit bounds discharged. -/
theorem combine32_claims_witness : (0 : ℕ) = 0 ∧ (1 : ℕ) = 1 :=
  combine32_claims.2.2.2.1 0 1 0 1 (by norm_num) (by norm_num) (by norm_num)
    (by norm_num) rfl

/-- C3: `decodeChargingStatus` extracts each field exactly per the
authoritative bit-layout table: input voltage status from bits 14–15 indexed
into its 4-entry table, charging status from bits 2–3 indexed into its
4-entry table, and each boolean flag from its single-bit mask; in particular
`decodeChargingStatus 0x0001` yields running = true, all other flags false,
chargingStatus = "No charging", inputVoltageStatus = "Normal". -/
theorem decodeChargingStatus_bit_layout :
    (∀ w : ℕ,
      (decodeChargingStatus w).input_voltage_status =
        ["Normal", "No power", "Higher volt input", "Input volt error"].getD
          ((w >>> 14) &&& 0x03) "" ∧
      (decodeChargingStatus w).charging_status =
        ["No charging", "Float", "Boost", "Equalization"].getD
          ((w >>> 2) &&& 0x03) "" ∧
      ((decodeChargingStatus w).charging_mosfet_short = true ↔ w &&& 0x2000 ≠ 0) ∧
      ((decodeChargingStatus w).charging_anti_reverse_short = true ↔ w &&& 0x1000 ≠ 0) ∧
      ((decodeChargingStatus w).anti_reverse_short = true ↔ w &&& 0x0800 ≠ 0) ∧
      ((decodeChargingStatus w).input_over_current = true ↔ w &&& 0x0400 ≠ 0) ∧
      ((decodeChargingStatus w).load_over_current = true ↔ w &&& 0x0200 ≠ 0) ∧
      ((decodeChargingStatus w).load_short = true ↔ w &&& 0x0100 ≠ 0) ∧
      ((decodeChargingStatus w).load_mosfet_short = true ↔ w &&& 0x0080 ≠ 0) ∧
      ((decodeChargingStatus w).pv_input_short = true ↔ w &&& 0x0010 ≠ 0) ∧
      ((decodeChargingStatus w).fault = true ↔ w &&& 0x0002 ≠ 0) ∧
      ((decodeChargingStatus w).running = true ↔ w &&& 0x0001 ≠ 0)) ∧
    decodeChargingStatus 0x0001 =
      { input_voltage_status := "Normal"
        charging_mosfet_short := false
        charging_anti_reverse_short := false
        anti_reverse_short := false
        input_over_current := false
        load_over_current := false
        load_short := false
        load_mosfet_short := false
        pv_input_short := false
        charging_status := "No charging"
        fault := false
        running := true } := by
  constructor
  · intro w
    refine ⟨rfl, rfl, ?_, ?_, ?_, ?_, ?_, ?_, ?_, ?_, ?_, ?_⟩ <;>
      simp [decodeChargingStatus]
  · decide

/-- C4 counterexample: at the word 0x200C, bits 2–3 are `0b11`, so the decoder
yields chargingStatus = "Equalization", not "Boost" as the claim states. -/
theorem decodeChargingStatus_0x200C_counterexample :
    (decodeChargingStatus 0x200C).charging_status = "Equalization" ∧
    ¬ (decodeChargingStatus 0x200C).charging_status = "Boost" := by
  decide

/-- C4 amended: `decodeChargingStatus 0x200C` yields
chargingStatus = "Equalization" (bits 2–3 of 0x200C are `0b11`, not the Boost
pattern `0b10`) and chargingMosfetShort = true, with fault = false and
running = false. -/
theorem decodeChargingStatus_0x200C_amended :
    (decodeChargingStatus 0x200C).charging_status = "Equalization" ∧
    (decodeChargingStatus 0x200C).charging_mosfet_short = true ∧
    (decodeChargingStatus 0x200C).fault = false ∧
    (decodeChargingStatus 0x200C).running = false := by
  decide

/-- C7: whenever `decodeBatteryStatus` returns a record, its voltage status is
the low 4 bits indexed into the 5-entry table, its temperature status is
bits 4–7 reduced modulo 3 indexed into the 3-entry table, and the two flags
come from masks 0x0100 and 0x8000; the decoder does return a record whenever
the low nibble is in range, and `decodeBatteryStatus 0x0000` yields
voltageStatus = "Normal", temperatureStatus = "Normal", both flags false. -/
theorem decodeBatteryStatus_bit_layout :
    (∀ (w : ℕ) (r : BatteryStatus), decodeBatteryStatus w = some r →
      r.voltage_status =
        ["Normal", "Overvolt", "Under Volt", "Low Volt Disconnect", "Fault"].getD
          (w &&& 0x0F) "" ∧
      r.temperature_status =
        ["Normal", "Over Temp", "Low Temp"].getD (((w >>> 4) &&& 0x0F) % 3) "" ∧
      (r.internal_resistance_abnormal = true ↔ w &&& 0x0100 ≠ 0) ∧
      (r.wrong_voltage_identification = true ↔ w &&& 0x8000 ≠ 0)) ∧
    decodeBatteryStatus 0x0000 =
      some
        { voltage_status := "Normal"
          temperature_status := "Normal"
          internal_resistance_abnormal := false
          wrong_voltage_identification := false } := by
  constructor
  · intro w r hr
    unfold decodeBatteryStatus at hr
    rcases hget :
        ["Normal", "Overvolt", "Under Volt", "Low Volt Disconnect", "Fault"].get?
          (w &&& 0x0F) with _ | vs
    · rw [hget] at hr
      exact absurd hr (by simp)
    · rw [hget] at hr
      have hrr := (Option.some_inj.mp hr).symm
      subst hrr
      refine ⟨?_, rfl, by simp, by simp⟩
      show vs =
        ["Normal", "Overvolt", "Under Volt", "Low Volt Disconnect", "Fault"].getD
          (w &&& 0x0F) ""
      rw [List.getD_eq_getElem?_getD, ← List.get?_eq_getElem?, hget]
      rfl
  · decide

/-- Witness for C7: the general clause applied at the concrete word 0x0000,
using the concrete evaluation to discharge the `= some r` hypothesis. -/
theorem decodeBatteryStatus_bit_layout_witness :
    ({ voltage_status := "Normal"
       temperature_status := "Normal"
       internal_resistance_abnormal := false
       wrong_voltage_identification := false } : BatteryStatus).voltage_status =
      ["Normal", "Overvolt", "Under Volt", "Low Volt Disconnect", "Fault"].getD
        (0 &&& 0x0F) "" ∧
    ({ voltage_status := "Normal"
       temperature_status := "Normal"
       internal_resistance_abnormal := false
       wrong_voltage_identification := false } : BatteryStatus).temperature_status =
      ["Normal", "Over Temp", "Low Temp"].getD (((0 >>> 4) &&& 0x0F) % 3) "" ∧
    (({ voltage_status := "Normal"
        temperature_status := "Normal"
        internal_resistance_abnormal := false
        wrong_voltage_identification := false } : BatteryStatus).internal_resistance_abnormal =
        true ↔ 0 &&& 0x0100 ≠ 0) ∧
    (({ voltage_status := "Normal"
        temperature_status := "Normal"
        internal_resistance_abnormal := false
        wrong_voltage_identification := false } : BatteryStatus).wrong_voltage_identification =
        true ↔ 0 &&& 0x8000 ≠ 0) :=
  decodeBatteryStatus_bit_layout.1 0 _ (by decide)

/-- C10: `decodeBatteryStatus` is total only when the low nibble is at most 4:
for every 16-bit word whose low nibble is 5–15 the 5-entry table lookup is out
of range and the decoder fails (Python raises `IndexError`), while for a low
nibble of 0–4 it returns a record. -/
theorem decodeBatteryStatus_raises_out_of_table :
    (∀ w : ℕ, w < 65536 → 5 ≤ w &&& 0x0F → decodeBatteryStatus w = none) ∧
    (∀ w : ℕ, w &&& 0x0F < 5 → (decodeBatteryStatus w).isSome = true) := by
  constructor
  · intro w _ h5
    unfold decodeBatteryStatus
    have : (["Normal", "Overvolt", "Under Volt", "Low Volt Disconnect",
        "Fault"].get? (w &&& 0x0F)) = none := by
      rw [List.get?_eq_none]
      simpa using h5
    rw [this]
  · intro w h5
    unfold decodeBatteryStatus
    rcases hget : (["Normal", "Overvolt", "Under Volt", "Low Volt Disconnect",
        "Fault"].get? (w &&& 0x0F)) with _ | vs
    · rw [List.get?_eq_none] at hget
      simp at hget
      omega
    · simp

/-- Witness for C10: both clauses applied at the concrete words 0x0005
(low nibble 5, decoder fails) and 0x0004 (low nibble 4, decoder succeeds). -/
theorem decodeBatteryStatus_raises_out_of_table_witness :
    decodeBatteryStatus 0x0005 = none ∧
    (decodeBatteryStatus 0x0004).isSome = true :=
  ⟨decodeBatteryStatus_raises_out_of_table.1 5 (by norm_num) (by decide),
   decodeBatteryStatus_raises_out_of_table.2 4 (by decide)⟩

/-- C2: each snapshot reader returns `none` when the block-read transaction
fails; when the transaction succeeds (delivering the requested register
count), it returns a dict whose key list is exactly the full field list of
that reading kind; and any dict it ever returns carries the full key list —
never a subset. -/
theorem snapshot_all_or_nothing :
    (readCurrent none = none ∧ readRatedData none = none ∧
      readStats none = none) ∧
    (∀ regs : List ℕ, regs.length = 20 →
      Option.map (List.map Prod.fst) (readCurrent (some regs)) =
        some currentKeys) ∧
    (∀ regs : List ℕ, regs.length = 5 →
      Option.map (List.map Prod.fst) (readRatedData (some regs)) =
        some ratedKeys) ∧
    (∀ regs : List ℕ, regs.length = 20 →
      Option.map (List.map Prod.fst) (readStats (some regs)) =
        some statsKeys) ∧
    (∀ b, readCurrent b ≠ none →
      Option.map (List.map Prod.fst) (readCurrent b) = some currentKeys) ∧
    (∀ b, readRatedData b ≠ none →
      Option.map (List.map Prod.fst) (readRatedData b) = some ratedKeys) ∧
    (∀ b, readStats b ≠ none →
      Option.map (List.map Prod.fst) (readStats b) = some statsKeys) := by
  refine ⟨⟨rfl, rfl, rfl⟩, ?_, ?_, ?_, ?_, ?_, ?_⟩
  · intro regs h
    simp only [readCurrent]
    rw [if_pos (by omega)]
    simp [currentKeys]
  · intro regs h
    simp only [readRatedData]
    rw [if_pos (by omega)]
    simp [ratedKeys]
  · intro regs h
    simp only [readStats]
    rw [if_pos (by omega)]
    simp [statsKeys]
  · intro b hb
    match b with
    | none => simp [readCurrent] at hb
    | some regs =>
      by_cases h20 : 20 ≤ regs.length
      · simp only [readCurrent]
        rw [if_pos h20]
        simp [currentKeys]
      · simp [readCurrent, h20] at hb
  · intro b hb
    match b with
    | none => simp [readRatedData] at hb
    | some regs =>
      by_cases h5 : 5 ≤ regs.length
      · simp only [readRatedData]
        rw [if_pos h5]
        simp [ratedKeys]
      · simp [readRatedData, h5] at hb
  · intro b hb
    match b with
    | none => simp [readStats] at hb
    | some regs =>
      by_cases h20 : 20 ≤ regs.length
      · simp only [readStats]
        rw [if_pos h20]
        simp [statsKeys]
      · simp [readStats, h20] at hb

/-- Witness for C2: the three failure clauses are closed; the success and
completeness clauses applied to a concrete successful 20-word (resp. 5-word)
block of zeros. -/
theorem snapshot_all_or_nothing_witness :
    Option.map (List.map Prod.fst) (readCurrent (some (List.replicate 20 0))) =
      some currentKeys ∧
    Option.map (List.map Prod.fst) (readRatedData (some (List.replicate 5 0))) =
      some ratedKeys ∧
    Option.map (List.map Prod.fst) (readStats (some (List.replicate 20 0))) =
      some statsKeys ∧
    Option.map (List.map Prod.fst) (readCurrent (some (List.replicate 20 0))) =
      some currentKeys :=
  ⟨snapshot_all_or_nothing.2.1 (List.replicate 20 0) (by simp),
   snapshot_all_or_nothing.2.2.1 (List.replicate 5 0) (by simp),
   snapshot_all_or_nothing.2.2.2.1 (List.replicate 20 0) (by simp),
   snapshot_all_or_nothing.2.2.2.2.1 (some (List.replicate 20 0))
     (by simp [readCurrent])⟩

/-- C6 counterexample: `readAllSettings` and `readSystemStatus` return
exactly the empty-but-successful mapping, so the claimed distinct
"unsupported" outcome (not an error, not an empty successful mapping) does
not exist in the code. -/
theorem unsupported_banks_counterexample :
    ¬ (readAllSettings ≠ some ([] : List (String × ℚ)) ∧
       readSystemStatus ≠ some ([] : List (String × ℚ))) := by
  intro h
  exact h.1 rfl

/-- C6 amended: reading an unsupported register bank (`readAllSettings`,
`readSystemStatus`) returns the empty-but-successful mapping after an
informational log; this value differs from the `None` failure outcome of the
other readers, but it is an empty successful mapping, not a dedicated
"unsupported" marker. -/
theorem unsupported_banks_amended :
    readAllSettings = some [] ∧ readSystemStatus = some [] ∧
    readAllSettings ≠ none ∧ readSystemStatus ≠ none := by
  refine ⟨rfl, rfl, ?_, ?_⟩ <;> simp [readAllSettings, readSystemStatus]

/-- C8: `setLoadControl` attempts all three coil writes (0x0002 with
`manual_on`, 0x0005 with `test_mode`, 0x0006 with `force_on`) whatever the
outcomes of earlier writes — the attempted-write trace is always the full
three-element sequence — and it returns `true` iff all three writes
succeed. -/
theorem setLoadControl_all_writes_and_conjunction :
    ∀ (env : ℕ → Bool) (manual_on test_mode force_on : Bool),
      (setLoadControl env manual_on test_mode force_on).2 =
        [(0x0002, manual_on), (0x0005, test_mode), (0x0006, force_on)] ∧
      ((setLoadControl env manual_on test_mode force_on).1 = true ↔
        env 0x0002 = true ∧ env 0x0005 = true ∧ env 0x0006 = true) := by
  intro env manual_on test_mode force_on
  refine ⟨rfl, ?_⟩
  simp [setLoadControl, writeCoil, and_assoc]

/-- C9: `readReg` returns the raw register word scaled by `10 ^ decimals`
when the transaction succeeds, returns `-1` on transport failure, and the
failure value is distinguishable from every valid scaled reading (raw words
are unsigned, so every valid reading is nonnegative while the error value is
negative). -/
theorem readReg_scaling_and_error :
    (∀ (env : ℕ → Option ℕ) (register decimals raw : ℕ),
      env register = some raw →
      readReg env register decimals = (raw : ℚ) / 10 ^ decimals) ∧
    (∀ (env : ℕ → Option ℕ) (register decimals : ℕ),
      env register = none → readReg env register decimals = -1) ∧
    (∀ (env1 env2 : ℕ → Option ℕ) (r1 r2 d1 d2 raw : ℕ),
      env1 r1 = some raw → env2 r2 = none →
      readReg env1 r1 d1 ≠ readReg env2 r2 d2) := by
  refine ⟨?_, ?_, ?_⟩
  · intro env register decimals raw h
    simp [readReg, h]
  · intro env register decimals h
    simp [readReg, h]
  · intro env1 env2 r1 r2 d1 d2 raw h1 h2
    simp only [readReg, h1, h2]
    intro heq
    have hnn : (0 : ℚ) ≤ (raw : ℚ) / 10 ^ d1 := by positivity
    rw [heq] at hnn
    norm_num at hnn

/-- Witness for C9: all three clauses at concrete transports (`raw = 5`,
`decimals = 2` at register 0x3100). -/
theorem readReg_scaling_and_error_witness :
    readReg (fun _ => some 5) 0x3100 2 = (5 : ℚ) / 10 ^ 2 ∧
    readReg (fun _ => none) 0x3100 2 = -1 ∧
    readReg (fun _ => some 5) 0x3100 2 ≠ readReg (fun _ => none) 0x3100 2 :=
  ⟨readReg_scaling_and_error.1 (fun _ => some 5) 0x3100 2 5 rfl,
   readReg_scaling_and_error.2.1 (fun _ => none) 0x3100 2 rfl,
   readReg_scaling_and_error.2.2 (fun _ => some 5) (fun _ => none)
     0x3100 0x3100 2 2 5 rfl rfl⟩

/-- `pyTrunc` is the identity on integers. -/
theorem pyTrunc_intCast (n : ℤ) : pyTrunc ((n : ℚ)) = n := by
  simp [pyTrunc, Int.tdiv_one]

/-- Scaling by `24 / 12` doubles an integer setting exactly. -/
theorem pyTrunc_double (x : ℤ) :
    pyTrunc ((x : ℚ) * ((24 : ℚ) / 12)) = 2 * x := by
  have h : ((x : ℚ) * ((24 : ℚ) / 12)) = ((2 * x : ℤ) : ℚ) := by
    push_cast
    ring
  rw [h, pyTrunc_intCast]

/-- C5: for every 15-element settings list, `setBatterySettings` writes the
sequence in which index 1 is replaced by the capacity when capacity ≠ 100,
indices 0–2 are otherwise unscaled, and each index from 3 on is multiplied by
`voltage / 12` and truncated to integer when voltage > 12; for the lead-acid
preset with capacity 150 and voltage 24, index 1 becomes 150, indices 3–14
double, and indices 0 and 2 are unchanged. -/
theorem setBatterySettings_scaling :
    (∀ (s : List ℤ) (c v : ℤ), s.length = 15 →
      (setBatterySettings s c v).length = 15 ∧
      (setBatterySettings s c v).getD 0 0 = s.getD 0 0 ∧
      (setBatterySettings s c v).getD 2 0 = s.getD 2 0 ∧
      (setBatterySettings s c v).getD 1 0 =
        (if c ≠ 100 then c else s.getD 1 0) ∧
      (∀ i : ℕ, 3 ≤ i → i < 15 →
        (setBatterySettings s c v).getD i 0 =
          if 12 < v then pyTrunc ((s.getD i 0 : ℚ) * ((v : ℚ) / 12))
          else s.getD i 0)) ∧
    setBatterySettings BATTERY_LEAD_ACID 150 24 =
      [0, 150, 300, 3240, 3000, 3000, 2920, 2880, 2760, 3260, 2520, 2440,
       2400, 2220, 2120] := by
  constructor
  · intro s c v hs
    rcases s with _ | ⟨a0, _ | ⟨a1, _ | ⟨a2, _ | ⟨a3, _ | ⟨a4, _ | ⟨a5,
      _ | ⟨a6, _ | ⟨a7, _ | ⟨a8, _ | ⟨a9, _ | ⟨a10, _ | ⟨a11, _ | ⟨a12,
      _ | ⟨a13, _ | ⟨a14, _ | ⟨a15,
      rest⟩⟩⟩⟩⟩⟩⟩⟩⟩⟩⟩⟩⟩⟩⟩⟩ <;>
      simp only [List.length_cons, List.length_nil] at hs <;> try omega
    rcases Decidable.em (c = 100) with hc | hc <;>
      rcases Decidable.em (12 < v) with hv | hv
    · have e : setBatterySettings
          [a0, a1, a2, a3, a4, a5, a6, a7, a8, a9, a10, a11, a12, a13, a14]
            c v =
          [a0, a1, a2] ++
            List.map (fun x : ℤ => pyTrunc ((x : ℚ) * ((v : ℚ) / 12)))
              [a3, a4, a5, a6, a7, a8, a9, a10, a11, a12, a13, a14] := by
        simp only [setBatterySettings]
        rw [if_pos hv, if_neg (by simp [hc])]
        rfl
      rw [e]
      refine ⟨by simp, rfl, rfl, ?_, ?_⟩
      · rw [if_neg (by simp [hc])]
        rfl
      · intro i h3 h15
        rw [if_pos hv]
        interval_cases i <;> rfl
    · have e : setBatterySettings
          [a0, a1, a2, a3, a4, a5, a6, a7, a8, a9, a10, a11, a12, a13, a14]
            c v =
          [a0, a1, a2, a3, a4, a5, a6, a7, a8, a9, a10, a11, a12, a13, a14] := by
        simp only [setBatterySettings]
        rw [if_neg hv, if_neg (by simp [hc])]
      rw [e]
      refine ⟨by simp, rfl, rfl, ?_, ?_⟩
      · rw [if_neg (by simp [hc])]
      · intro i h3 h15
        rw [if_neg hv]
    · have e : setBatterySettings
          [a0, a1, a2, a3, a4, a5, a6, a7, a8, a9, a10, a11, a12, a13, a14]
            c v =
          [a0, c, a2] ++
            List.map (fun x : ℤ => pyTrunc ((x : ℚ) * ((v : ℚ) / 12)))
              [a3, a4, a5, a6, a7, a8, a9, a10, a11, a12, a13, a14] := by
        simp only [setBatterySettings]
        rw [if_pos hv, if_pos hc]
        rfl
      rw [e]
      refine ⟨by simp, rfl, rfl, ?_, ?_⟩
      · rw [if_pos hc]
        rfl
      · intro i h3 h15
        rw [if_pos hv]
        interval_cases i <;> rfl
    · have e : setBatterySettings
          [a0, a1, a2, a3, a4, a5, a6, a7, a8, a9, a10, a11, a12, a13, a14]
            c v =
          [a0, c, a2, a3, a4, a5, a6, a7, a8, a9, a10, a11, a12, a13, a14] := by
        simp only [setBatterySettings]
        rw [if_neg hv, if_pos hc]
        rfl
      rw [e]
      refine ⟨by simp, rfl, rfl, ?_, ?_⟩
      · rw [if_pos hc]
        rfl
      · intro i h3 h15
        rw [if_neg hv]
        interval_cases i <;> rfl
  · simp only [setBatterySettings, BATTERY_LEAD_ACID]
    norm_num [List.set]
    simp [pyTrunc]

/-- Witness for C5: the general clause applied to the lead-acid preset with
capacity 150 and voltage 24, evaluated at index 3 (1620 scaled to 3240). -/
theorem setBatterySettings_scaling_witness :
    (setBatterySettings BATTERY_LEAD_ACID 150 24).getD 3 0 =
      (if (12 : ℤ) < 24 then
        pyTrunc ((BATTERY_LEAD_ACID.getD 3 0 : ℚ) * (((24 : ℤ) : ℚ) / 12))
      else BATTERY_LEAD_ACID.getD 3 0) :=
  ((setBatterySettings_scaling.1 BATTERY_LEAD_ACID 150 24
    (by decide)).2.2.2.2) 3 (by norm_num) (by norm_num)

end SolarTracer
